import Mathlib

/-!
Shallow embedding of the workflow engine of the th_academy backend
(src/backend/server.py, src/backend/models.py,
src/backend/services/auth_service.py).

Modelling conventions:
* MongoDB collections become Lean lists inside a `DB` record; `find_one`
  becomes `List.find?` (first match) and `update_one` becomes `updateFirst`
  (updates the first matching element only, like Mongo's update_one).
* Each FastAPI handler becomes a function `DB → ... → DB × Except ApiError α`.
  In every handler of the source, all `raise HTTPException` sites that guard
  preconditions occur before the first database write, so returning the
  unchanged `DB` together with the error is faithful; where the source can
  crash after a write (a `None` subscripted while building a notification
  email), the model returns the partially updated `DB` with `internalError`.
* Authentication (`get_current_user`) is modelled by passing the acting
  `User` value; the `require_role` dependency becomes an explicit
  `has_permission` check at the top of the handler that carries it.
* Outbound email (`email_service.send_email`) is recorded in `DB.emails`;
  decorative emoji prefixes of subjects are elided.  Audit-log writes,
  timestamps and float formatting inside message bodies are outside every
  claim and are not modelled; notification titles and `notification_type`
  discriminators are kept verbatim.
* Generated uuid4 ids and the outcome of the external file vault
  (`storage_service.upload_file`) are nondeterministic inputs and are passed
  as parameters (`freshId`, and `uploadResult : Option String` where `none`
  models a failed upload).
-/

/-- models.py `UserRole` -/
inductive UserRole where
  | superadmin
  | admin
  | legal_rep
  | accountant
  | collaborator
deriving DecidableEq, Repr

/-- models.py `ContractStatus` -/
inductive ContractStatus where
  | draft
  | pending_documents
  | under_review
  | pending_approval
  | approved
  | pending_signature
  | signed
  | active
  | completed
  | cancelled
deriving DecidableEq, Repr

/-- models.py `DocumentType` (the nine enum members actually defined) -/
inductive DocumentType where
  | cedula
  | rut
  | soportes_laborales
  | soportes_educativos
  | cert_bancaria
  | antecedentes
  | tarjeta_entrenador
  | hoja_vida
  | propuesta_trabajo
deriving DecidableEq, Repr

/-- models.py `DocumentStatus` -/
inductive DocumentStatus where
  | pending
  | uploaded
  | under_review
  | approved
  | rejected
  | expired
deriving DecidableEq, Repr

/-- models.py `PaymentStatus` -/
inductive PaymentStatus where
  | draft
  | pending_approval
  | approved
  | paid
  | rejected
  | cancelled
deriving DecidableEq, Repr

/-- models.py `User` (fields the workflow reads) -/
structure User where
  id : String
  email : String
  role : UserRole
  is_active : Bool
deriving DecidableEq, Repr

/-- models.py `Contract` (fields the workflow reads or writes) -/
structure Contract where
  id : String
  collaborator_id : String
  title : String
  status : ContractStatus
  created_by : String
  approved_by : Option String
  contract_file_id : Option String
  signed_file_id : Option String
deriving DecidableEq, Repr

/-- models.py `Document` (fields the workflow reads or writes) -/
structure Document where
  id : String
  document_type : DocumentType
  contract_id : String
  file_name : String
  file_id : String
  status : DocumentStatus
  uploaded_by : String
  reviewed_by : Option String
  review_notes : Option String
deriving DecidableEq, Repr

/-- models.py `Payment` (fields the workflow reads or writes; the float
`amount` is carried as a Nat, it is never computed with) -/
structure Payment where
  id : String
  contract_id : String
  amount : Nat
  status : PaymentStatus
  created_by : String
  bill_file_id : Option String
  voucher_file_id : Option String
  approved_by : Option String
  rejected_by : Option String
  rejection_reason : Option String
  confirmed_by : Option String
deriving DecidableEq, Repr

/-- models.py `Notification` -/
structure Notification where
  user_id : String
  title : String
  message : String
  notification_type : String
  read : Bool
deriving DecidableEq, Repr

/-- A call to email_service.send_email (recipient address and subject). -/
structure EmailMsg where
  recipient : String
  subject : String
deriving DecidableEq, Repr

/-- The persistent state: one list per MongoDB collection, plus the
fire-and-forget email channel. -/
structure DB where
  users : List User
  contracts : List Contract
  documents : List Document
  payments : List Payment
  notifications : List Notification
  emails : List EmailMsg
deriving DecidableEq, Repr

/-- Error taxonomy as surfaced by the handlers (HTTP status + detail).
`badRequest` is the source's HTTP 400 used for InvalidState preconditions,
`validationError` is the FastAPI 422 raised when a required `File(...)`
parameter is absent, `internalError` is an unhandled Python TypeError or
AttributeError escaping the handler. -/
inductive ApiError where
  | notFound (detail : String)
  | badRequest (detail : String)
  | forbidden (detail : String)
  | validationError
  | storageFailure (detail : String)
  | internalError
deriving DecidableEq, Repr

deriving instance DecidableEq for Except

/-- services/auth_service.py `role_hierarchy` dictionary inside
`AuthService.has_permission`. -/
def role_hierarchy : UserRole → Nat
  | .superadmin => 5
  | .admin => 4
  | .legal_rep => 3
  | .accountant => 2
  | .collaborator => 1

/-- services/auth_service.py `AuthService.has_permission`: rank lookup and
comparison (both arguments are members of `UserRole`, so the dictionary
default 0 is never taken). -/
def has_permission (user_role required_role : UserRole) : Bool :=
  role_hierarchy required_role ≤ role_hierarchy user_role

/-- server.py `REQUIRED_DOCUMENTS` (lines 809-816), the catalog the workflow
operations use. -/
def REQUIRED_DOCUMENTS : List DocumentType :=
  [.cedula, .rut, .cert_bancaria, .antecedentes, .hoja_vida, .propuesta_trabajo]

/-- server.py `OPTIONAL_DOCUMENTS` (lines 818-822). -/
def OPTIONAL_DOCUMENTS : List DocumentType :=
  [.soportes_laborales, .soportes_educativos, .tarjeta_entrenador]

/-- Python attribute lookup `DocumentType.<NAME>` on the models.py enum:
`some` for the nine defined members, `none` (an AttributeError at module
evaluation time) for anything else. -/
def DocumentType.fromName : String → Option DocumentType
  | "CEDULA" => some .cedula
  | "RUT" => some .rut
  | "SOPORTES_LABORALES" => some .soportes_laborales
  | "SOPORTES_EDUCATIVOS" => some .soportes_educativos
  | "CERT_BANCARIA" => some .cert_bancaria
  | "ANTECEDENTES" => some .antecedentes
  | "TARJETA_ENTRENADOR" => some .tarjeta_entrenador
  | "HOJA_VIDA" => some .hoja_vida
  | "PROPUESTA_TRABAJO" => some .propuesta_trabajo
  | _ => none

/-- models.py `REQUIRED_DOCUMENTS` (lines 142-147): the member names it
references, in order. -/
def models_REQUIRED_DOCUMENT_NAMES : List String :=
  ["CEDULA", "RUT", "CERT_BANCARIA", "ANTECEDENTES"]

/-- models.py `OPTIONAL_DOCUMENTS` (lines 149-153): the member names it
references, in order. -/
def models_OPTIONAL_DOCUMENT_NAMES : List String :=
  ["CERT_LABORAL", "CERT_EDUCATIVA", "LICENCIA"]

/-- Evaluating a models.py document list means resolving every referenced
attribute; `none` models the AttributeError that aborts module loading. -/
def evalDocumentList (names : List String) : Option (List DocumentType) :=
  names.mapM DocumentType.fromName

/-- Mongo `update_one`: apply `f` to the first element satisfying `p`,
leave the rest unchanged. -/
def updateFirst (p : α → Bool) (f : α → α) : List α → List α
  | [] => []
  | x :: xs => if p x then f x :: xs else x :: updateFirst p f xs

/-- `db.users.find_one` by id. -/
def findUser (db : DB) (uid : String) : Option User :=
  db.users.find? (fun u => u.id == uid)

/-- `db.contracts.find_one` by id. -/
def findContract (db : DB) (cid : String) : Option Contract :=
  db.contracts.find? (fun c => c.id == cid)

/-- `db.documents.find_one` by id. -/
def findDocumentById (db : DB) (did : String) : Option Document :=
  db.documents.find? (fun d => d.id == did)

/-- `db.documents.find_one` by the (contract_id, document_type) key. -/
def findDocumentByKey (db : DB) (cid : String) (dt : DocumentType) : Option Document :=
  db.documents.find? (fun d => d.contract_id == cid && d.document_type == dt)

/-- `db.payments.find_one` by id. -/
def findPayment (db : DB) (pid : String) : Option Payment :=
  db.payments.find? (fun p => p.id == pid)

/-- `db.notifications.insert_one`. -/
def pushNotification (db : DB) (uid title message ntype : String) : DB :=
  { db with notifications :=
      db.notifications ++ [⟨uid, title, message, ntype, false⟩] }

/-- `email_service.send_email` (best effort, recorded). -/
def pushEmail (db : DB) (recipient subject : String) : DB :=
  { db with emails := db.emails ++ [⟨recipient, subject⟩] }

/-- A notification insert followed by an email, for each user of a list
(the `for accountant in accountants` / `for admin in admins` loops). -/
def notifyEach (db : DB) (targets : List User) (title message ntype subject : String)
    (withEmail : Bool) : DB :=
  targets.foldl
    (fun d u =>
      let d1 := pushNotification d u.id title message ntype
      if withEmail then pushEmail d1 u.email subject else d1)
    db

/-- The inline ownership test of `upload_bill` (server.py lines 1308-1310):
the contract of the payment is fetched, and
`current_user.role == COLLABORATOR and contract["collaborator_id"] != ...`
subscripts a possibly absent contract, so a collaborator acting on a payment
whose contract is missing crashes with a TypeError before any write. -/
def billOwnershipCheck (db : DB) (actor : User) (contract_id : String) :
    Except ApiError Unit :=
  if actor.role == .collaborator then
    match findContract db contract_id with
    | none => .error .internalError
    | some contract =>
      if contract.collaborator_id != actor.id then .error (.forbidden "Access denied")
      else .ok ()
  else .ok ()

/-- server.py `create_contract` (lines 441-516).  Role gate LEGAL_REP; the
collaborator query matches id and role only (`is_active` is not part of the
query); initial status PENDING_DOCUMENTS; notification then email to the
collaborator. -/
def create_contract (db : DB) (actor : User) (collaborator_id title freshId : String) :
    DB × Except ApiError Contract :=
  if ¬ has_permission actor.role .legal_rep then
    (db, .error (.forbidden "Insufficient permissions"))
  else
    match db.users.find? (fun u => u.id == collaborator_id && u.role == .collaborator) with
    | none => (db, .error (.notFound "Colaborador no encontrado"))
    | some collaborator =>
      let contract : Contract :=
        { id := freshId, collaborator_id := collaborator_id, title := title,
          status := .pending_documents, created_by := actor.id,
          approved_by := none, contract_file_id := none, signed_file_id := none }
      let db1 := { db with contracts := db.contracts ++ [contract] }
      let db2 := pushNotification db1 collaborator_id "Nuevo Contrato Creado"
        ("Se ha creado un nuevo contrato: " ++ title ++
          ". Por favor cargue los documentos requeridos.")
        "contract_created"
      let db3 := pushEmail db2 collaborator.email
        "Nuevo Contrato Creado - Academia Jotuns Club"
      (db3, .ok contract)

/-- server.py `approve_contract` (lines 662-754).  Role gate LEGAL_REP; the
`file` parameter is required by FastAPI (`hasFile = false` is the 422 for a
missing file); status must be exactly PENDING_APPROVAL; the vault write is
validated before the single `$set` that writes status, approver and file
reference; then notification and email to the collaborator (the email
subscripts the collaborator user, crashing after the write if absent). -/
def approve_contract (db : DB) (actor : User) (contract_id : String)
    (hasFile : Bool) (uploadResult : Option String) : DB × Except ApiError Unit :=
  if ¬ has_permission actor.role .legal_rep then
    (db, .error (.forbidden "Insufficient permissions"))
  else if ¬ hasFile then (db, .error .validationError)
  else
    match findContract db contract_id with
    | none => (db, .error (.notFound "Contract not found"))
    | some contract =>
      if contract.status != .pending_approval then
        (db, .error (.badRequest "Contract is not pending approval"))
      else
        match uploadResult with
        | none => (db, .error (.storageFailure "Failed to upload contract document"))
        | some fid =>
          let contracts1 :=
            updateFirst (fun c => c.id == contract_id)
              (fun c => { c with status := .approved, approved_by := some actor.id,
                                 contract_file_id := some fid })
              db.contracts
          let db1 := { db with contracts := contracts1 }
          let db2 := pushNotification db1 contract.collaborator_id "Contrato Aprobado"
            ("Su contrato " ++ contract.title ++
              " ha sido aprobado. Por favor descargue, firme y cargue el documento firmado.")
            "contract_approved"
          match findUser db contract.collaborator_id with
          | none => (db2, .error .internalError)
          | some collaborator =>
            (pushEmail db2 collaborator.email "Contrato Aprobado - Academia Jotuns Club",
             .ok ())

/-- All required document types are present (by type only) among a
contract's documents: the `required_types.issubset(uploaded_types)` check of
`upload_contract_document` (server.py lines 974-979). -/
def allRequiredPresent (documents : List Document) (contract_id : String) : Bool :=
  REQUIRED_DOCUMENTS.all (fun t =>
    ((documents.filter (fun d => d.contract_id == contract_id)).map
      (fun d => d.document_type)).contains t)

/-- server.py `upload_contract_document` (lines 906-1005).  Any authenticated
user; a collaborator must own the contract; re-upload updates the existing
(contract, type) record in place (file name and reference replaced, status
UPLOADED, reviewer and notes cleared), first upload inserts; if the contract
is PENDING_DOCUMENTS and the required set is now fully present (by type) its
status advances to UNDER_REVIEW; then one notification per admin. -/
def upload_contract_document (db : DB) (actor : User) (contract_id : String)
    (dt : DocumentType) (fileName : String) (uploadResult : Option String)
    (freshId : String) : DB × Except ApiError String :=
  match findContract db contract_id with
  | none => (db, .error (.notFound "Contract not found"))
  | some contract =>
    if actor.role == .collaborator && contract.collaborator_id != actor.id then
      (db, .error (.forbidden "Access denied"))
    else
      let existing := findDocumentByKey db contract_id dt
      match uploadResult with
      | none => (db, .error (.storageFailure "Failed to upload file"))
      | some fid =>
        let upd : List Document × String :=
          match existing with
          | some ex =>
            (updateFirst (fun d => d.id == ex.id)
              (fun d => { d with file_name := fileName, file_id := fid,
                                 status := .uploaded, review_notes := none,
                                 reviewed_by := none })
              db.documents, ex.id)
          | none =>
            (db.documents ++
              [{ id := freshId, document_type := dt, contract_id := contract_id,
                 file_name := fileName, file_id := fid, status := .uploaded,
                 uploaded_by := actor.id, reviewed_by := none, review_notes := none }],
             freshId)
        let db1 := { db with documents := upd.1 }
        let advance := fun (d : DB) =>
          let cs :=
            updateFirst (fun c => c.id == contract_id)
              (fun c => { c with status := .under_review }) d.contracts
          { d with contracts := cs }
        let db2 :=
          if contract.status == .pending_documents then
            if allRequiredPresent db1.documents contract_id then advance db1
            else db1
          else db1
        let db3 := notifyEach db2 (db2.users.filter (fun u => u.role == .admin))
          "Documento Cargado"
          ("Documento cargado para contrato: " ++ contract.title)
          "document_uploaded" "" false
        (db3, .ok upd.2)

/-- Number of this contract's documents that are of a required type and
approved: the `approved_required` count of `review_document` (server.py
lines 1155-1157). -/
def approvedRequiredCount (documents : List Document) (contract_id : String) : Nat :=
  (documents.filter (fun d =>
    d.contract_id == contract_id && REQUIRED_DOCUMENTS.contains d.document_type &&
      d.status == .approved)).length

/-- The collaborator-facing message of the always-inserted
"Documento Revisado" notification (server.py lines 1100-1106). -/
def reviewNotificationMessage (status? : Option DocumentStatus)
    (review_notes? : Option String) : String :=
  match status? with
  | some .approved => "Su documento ha sido APROBADO."
  | some .rejected =>
    "Su documento ha sido RECHAZADO. Observacion: " ++
      (review_notes?.getD "Sin observaciones") ++
      ". Por favor corrija y vuelva a cargar el documento."
  | _ => "Su documento ha sido revisado."

/-- The `$set` of `review_document` (server.py lines 1083-1090): apply the
provided status and notes and record the reviewer. -/
def applyReview (actor : User) (status? : Option DocumentStatus)
    (review_notes? : Option String) (d : Document) : Document :=
  { d with
    status := status?.getD d.status,
    review_notes := match review_notes? with
      | some n => some n
      | none => d.review_notes,
    reviewed_by := some actor.id }

/-- server.py `review_document` (lines 1070-1210).  Role gate ADMIN; the
update always sets `reviewed_by` and applies the provided status and notes;
the collaborator always gets one "Documento Revisado" notification; an email
goes out only on rejection; on approval, if every required document of the
contract is now approved and the contract is currently UNDER_REVIEW, the
contract advances to PENDING_APPROVAL and the collaborator gets one
"documents complete" email — no notification record is inserted for that
cascade. -/
def review_document (db : DB) (actor : User) (document_id : String)
    (status? : Option DocumentStatus) (review_notes? : Option String) :
    DB × Except ApiError Unit :=
  if ¬ has_permission actor.role .admin then
    (db, .error (.forbidden "Insufficient permissions"))
  else
    match findDocumentById db document_id with
    | none => (db, .error (.notFound "Document not found"))
    | some document =>
      let documents1 :=
        updateFirst (fun d => d.id == document_id)
          (applyReview actor status? review_notes?) db.documents
      let db1 := { db with documents := documents1 }
      match findContract db1 document.contract_id with
      | none => (db1, .ok ())
      | some contract =>
        let collaborator? := findUser db1 contract.collaborator_id
        let db2 := pushNotification db1 contract.collaborator_id "Documento Revisado"
          (reviewNotificationMessage status? review_notes?) "document_reviewed"
        let db3 :=
          if status? == some .rejected then
            match collaborator? with
            | some u => if u.email != "" then pushEmail db2 u.email "Documento Rechazado" else db2
            | none => db2
          else db2
        if status? == some .approved then
          if REQUIRED_DOCUMENTS.length ≤ approvedRequiredCount db3.documents contract.id then
            if contract.status == .under_review then
              let contracts4 :=
                updateFirst (fun c => c.id == contract.id)
                  (fun c => { c with status := .pending_approval }) db3.contracts
              let db4 := { db3 with contracts := contracts4 }
              let db5 :=
                match collaborator? with
                | some u =>
                  if u.email != "" then
                    pushEmail db4 u.email
                      ("Documentos Completos - Contrato " ++ contract.title)
                  else db4
                | none => db4
              (db5, .ok ())
            else (db3, .ok ())
          else (db3, .ok ())
        else (db3, .ok ())

/-- server.py `create_payment` (lines 1231-1267).  Any authenticated user;
the contract must exist; a collaborator must own it; the payment starts in
DRAFT with every marker unset. -/
def create_payment (db : DB) (actor : User) (contract_id : String) (amount : Nat)
    (freshId : String) : DB × Except ApiError Payment :=
  match findContract db contract_id with
  | none => (db, .error (.notFound "Contract not found"))
  | some contract =>
    if actor.role == .collaborator && contract.collaborator_id != actor.id then
      (db, .error (.forbidden "Access denied"))
    else
      let payment : Payment :=
        { id := freshId, contract_id := contract_id, amount := amount,
          status := .draft, created_by := actor.id, bill_file_id := none,
          voucher_file_id := none, approved_by := none, rejected_by := none,
          rejection_reason := none, confirmed_by := none }
      ({ db with payments := db.payments ++ [payment] }, .ok payment)

/-- server.py `upload_bill` (lines 1294-1382).  Any authenticated user; a
collaborator must own the payment's contract; the vault write is validated;
then the payment is unconditionally set to PENDING_APPROVAL with the new
bill file reference — the handler never reads `payment["status"]`, so there
is no status precondition; finally every accountant gets a notification and
an email. -/
def upload_bill (db : DB) (actor : User) (payment_id : String)
    (uploadResult : Option String) : DB × Except ApiError String :=
  match findPayment db payment_id with
  | none => (db, .error (.notFound "Payment not found"))
  | some payment =>
    match billOwnershipCheck db actor payment.contract_id with
    | .error e => (db, .error e)
    | .ok _ =>
      match uploadResult with
      | none => (db, .error (.storageFailure "Failed to upload file"))
      | some fid =>
        let payments1 :=
          updateFirst (fun p => p.id == payment_id)
            (fun p => { p with status := .pending_approval, bill_file_id := some fid })
            db.payments
        let db1 := { db with payments := payments1 }
        let db2 := notifyEach db1 (db1.users.filter (fun u => u.role == .accountant))
          "Nueva Cuenta de Cobro" "Cuenta de cobro requiere aprobacion"
          "payment_approval_needed" "Nueva Cuenta de Cobro - Academia Jotuns Club" true
        (db2, .ok fid)

/-- server.py `approve_payment` (lines 1384-1459).  Role gate ACCOUNTANT;
status must be exactly PENDING_APPROVAL; the `$set` writes status APPROVED
and `approved_by` only — `rejected_by` and `rejection_reason` are left as
they are; then notification and email to the collaborator (subscripting the
contract or collaborator crashes after the write if either is absent). -/
def approve_payment (db : DB) (actor : User) (payment_id : String) :
    DB × Except ApiError Unit :=
  if ¬ has_permission actor.role .accountant then
    (db, .error (.forbidden "Insufficient permissions"))
  else
    match findPayment db payment_id with
    | none => (db, .error (.notFound "Payment not found"))
    | some payment =>
      if payment.status != .pending_approval then
        (db, .error (.badRequest "Payment is not pending approval"))
      else
        let payments1 :=
          updateFirst (fun p => p.id == payment_id)
            (fun p => { p with status := .approved, approved_by := some actor.id })
            db.payments
        let db1 := { db with payments := payments1 }
        match findContract db1 payment.contract_id with
        | none => (db1, .error .internalError)
        | some contract =>
          let db2 := pushNotification db1 contract.collaborator_id
            "Cuenta de Cobro Aprobada" "Su cuenta de cobro ha sido aprobada"
            "payment_approved"
          match findUser db2 contract.collaborator_id with
          | none => (db2, .error .internalError)
          | some collaborator =>
            (pushEmail db2 collaborator.email
              "Cuenta de Cobro Aprobada - Academia Jotuns Club", .ok ())

/-- server.py `reject_payment` (lines 1461-1515).  Role gate ACCOUNTANT;
status must be exactly PENDING_APPROVAL; the reason is a required query
parameter but its content is never validated — the empty string is accepted
and stored verbatim; the `$set` writes status REJECTED, the reason and
`rejected_by` only — `approved_by` is left as it is; then notification and
email to the collaborator. -/
def reject_payment (db : DB) (actor : User) (payment_id rejection_reason : String) :
    DB × Except ApiError Unit :=
  if ¬ has_permission actor.role .accountant then
    (db, .error (.forbidden "Insufficient permissions"))
  else
    match findPayment db payment_id with
    | none => (db, .error (.notFound "Payment not found"))
    | some payment =>
      if payment.status != .pending_approval then
        (db, .error (.badRequest "Payment is not pending approval"))
      else
        let payments1 :=
          updateFirst (fun p => p.id == payment_id)
            (fun p => { p with status := .rejected,
                               rejection_reason := some rejection_reason,
                               rejected_by := some actor.id })
            db.payments
        let db1 := { db with payments := payments1 }
        match findContract db1 payment.contract_id with
        | none => (db1, .error .internalError)
        | some contract =>
          let db2 := pushNotification db1 contract.collaborator_id
            "Cuenta de Cobro Rechazada"
            ("Su cuenta de cobro fue rechazada. Motivo: " ++ rejection_reason)
            "payment_rejected"
          match findUser db2 contract.collaborator_id with
          | none => (db2, .error .internalError)
          | some collaborator =>
            (pushEmail db2 collaborator.email
              "Cuenta de Cobro Rechazada - Jotuns Club", .ok ())

/-- server.py `confirm_payment` (lines 1517 onward).  Role gate ACCOUNTANT;
status must be exactly APPROVED; the voucher file is required and its vault
write validated before the `$set` writing status PAID, the voucher reference
and `confirmed_by`; then notification and email to the collaborator. -/
def confirm_payment (db : DB) (actor : User) (payment_id : String)
    (hasFile : Bool) (uploadResult : Option String) : DB × Except ApiError Unit :=
  if ¬ has_permission actor.role .accountant then
    (db, .error (.forbidden "Insufficient permissions"))
  else if ¬ hasFile then (db, .error .validationError)
  else
    match findPayment db payment_id with
    | none => (db, .error (.notFound "Payment not found"))
    | some payment =>
      if payment.status != .approved then
        (db, .error (.badRequest "Payment must be approved first"))
      else
        match uploadResult with
        | none => (db, .error (.storageFailure "Failed to upload file"))
        | some fid =>
          let payments1 :=
            updateFirst (fun p => p.id == payment_id)
              (fun p => { p with status := .paid, voucher_file_id := some fid,
                                 confirmed_by := some actor.id })
              db.payments
          let db1 := { db with payments := payments1 }
          match findContract db1 payment.contract_id with
          | none => (db1, .error .internalError)
          | some contract =>
            let db2 := pushNotification db1 contract.collaborator_id
              "Pago Realizado"
              "El pago ha sido procesado. Puede descargar su comprobante."
              "payment_confirmed"
            match findUser db2 contract.collaborator_id with
            | none => (db2, .error .internalError)
            | some collaborator =>
              (pushEmail db2 collaborator.email
                "Pago Realizado - Academia Jotuns Club", .ok ())

/-- The rank assignment written from the spec text of section 4.1:
SUPERADMIN(5) > ADMIN(4) > LEGAL_REP(3) > ACCOUNTANT(2) > COLLABORATOR(1)
(spec-side definition, to be compared with `has_permission`). -/
def rankSpec : UserRole → Nat
  | .superadmin => 5
  | .admin => 4
  | .legal_rep => 3
  | .accountant => 2
  | .collaborator => 1

/-- The uniqueness key of a Document. -/
def docKey (d : Document) : String × DocumentType :=
  (d.contract_id, d.document_type)

/-- The (contract_id, document_type) pairs of a documents collection are
pairwise distinct. -/
def documentsKeyUnique (docs : List Document) : Prop :=
  (docs.map docKey).Nodup

-- ===== concrete fixtures used by counterexamples and witnesses =====

/-- C1 fixture: an admin actor. -/
def c1_admin : User := { id := "adm", email := "adm@x", role := .admin, is_active := true }

/-- C1 fixture: a payment that is already PAID. -/
def c1_payment : Payment :=
  { id := "p1", contract_id := "c1", amount := 100, status := .paid,
    created_by := "u", bill_file_id := some "oldbill", voucher_file_id := some "v",
    approved_by := some "acc", rejected_by := none, rejection_reason := none,
    confirmed_by := some "acc" }

/-- C1 fixture: a database holding only the PAID payment. -/
def c1_db : DB :=
  { users := [c1_admin], contracts := [], documents := [], payments := [c1_payment],
    notifications := [], emails := [] }

/-- C1 witness fixture: a DRAFT payment. -/
def c1w_payment : Payment :=
  { id := "p2", contract_id := "c1", amount := 50, status := .draft,
    created_by := "u", bill_file_id := none, voucher_file_id := none,
    approved_by := none, rejected_by := none, rejection_reason := none,
    confirmed_by := none }

/-- C1 witness fixture database. -/
def c1w_db : DB :=
  { users := [c1_admin], contracts := [], documents := [], payments := [c1w_payment],
    notifications := [], emails := [] }

/-- C2 fixture: the reviewing admin. -/
def c2_admin : User := { id := "adm", email := "adm@x", role := .admin, is_active := true }

/-- C2 fixture: the collaborator who owns the contract. -/
def c2_collab : User := { id := "u", email := "u@x", role := .collaborator, is_active := true }

/-- C2 fixture: a contract UNDER_REVIEW. -/
def c2_contract : Contract :=
  { id := "c1", collaborator_id := "u", title := "T", status := .under_review,
    created_by := "rep", approved_by := none, contract_file_id := none,
    signed_file_id := none }

/-- C2 fixture: one document of a given required type, with a given status. -/
def c2_doc (did : String) (dt : DocumentType) (st : DocumentStatus) : Document :=
  { id := did, document_type := dt, contract_id := "c1", file_name := "f.pdf",
    file_id := "fid-" ++ did, status := st, uploaded_by := "u",
    reviewed_by := none, review_notes := none }

/-- C2 fixture: all six required documents uploaded, the first five already
approved, the sixth still UPLOADED. -/
def c2_db : DB :=
  { users := [c2_admin, c2_collab],
    contracts := [c2_contract],
    documents :=
      [c2_doc "d1" .cedula .approved, c2_doc "d2" .rut .approved,
       c2_doc "d3" .cert_bancaria .approved, c2_doc "d4" .antecedentes .approved,
       c2_doc "d5" .hoja_vida .approved, c2_doc "d6" .propuesta_trabajo .uploaded],
    payments := [], notifications := [], emails := [] }

/-- C3 fixture: contract in PENDING_DOCUMENTS with five of the six required
types already uploaded. -/
def c3_contract : Contract :=
  { id := "c1", collaborator_id := "u", title := "T", status := .pending_documents,
    created_by := "rep", approved_by := none, contract_file_id := none,
    signed_file_id := none }

/-- C3 fixture database. -/
def c3_db : DB :=
  { users := [c2_collab],
    contracts := [c3_contract],
    documents :=
      [c2_doc "d1" .cedula .uploaded, c2_doc "d2" .rut .uploaded,
       c2_doc "d3" .cert_bancaria .uploaded, c2_doc "d4" .antecedentes .uploaded,
       c2_doc "d5" .hoja_vida .uploaded],
    payments := [], notifications := [], emails := [] }

/-- C4 fixture: approving legal representative. -/
def c4_rep : User := { id := "rep", email := "rep@x", role := .legal_rep, is_active := true }

/-- C4 fixture: contract in PENDING_APPROVAL. -/
def c4_contract : Contract :=
  { id := "c1", collaborator_id := "u", title := "T", status := .pending_approval,
    created_by := "rep", approved_by := none, contract_file_id := none,
    signed_file_id := none }

/-- C4 fixture database. -/
def c4_db : DB :=
  { users := [c4_rep, c2_collab], contracts := [c4_contract], documents := [],
    payments := [], notifications := [], emails := [] }

/-- C5/C6 fixture: the accountant actor. -/
def c5_acc : User := { id := "acc", email := "acc@x", role := .accountant, is_active := true }

/-- C5 fixture: contract owning the payment. -/
def c5_contract : Contract :=
  { id := "c1", collaborator_id := "u", title := "T", status := .active,
    created_by := "rep", approved_by := none, contract_file_id := none,
    signed_file_id := none }

/-- C5 fixture: payment waiting for a decision. -/
def c5_payment : Payment :=
  { id := "p1", contract_id := "c1", amount := 100, status := .pending_approval,
    created_by := "u", bill_file_id := some "b1", voucher_file_id := none,
    approved_by := none, rejected_by := none, rejection_reason := none,
    confirmed_by := none }

/-- C5 fixture database. -/
def c5_db : DB :=
  { users := [c5_acc, c2_collab], contracts := [c5_contract],
    documents := [], payments := [c5_payment], notifications := [], emails := [] }

/-- C6 fixture: collaborator actor who owns contract c1. -/
def c6_collab : User := { id := "u", email := "u@x", role := .collaborator, is_active := true }

/-- C6 fixture: a DRAFT payment on contract c1. -/
def c6_payment : Payment :=
  { id := "p1", contract_id := "c1", amount := 100, status := .draft,
    created_by := "u", bill_file_id := none, voucher_file_id := none,
    approved_by := none, rejected_by := none, rejection_reason := none,
    confirmed_by := none }

/-- C6 fixture database. -/
def c6_db : DB :=
  { users := [c5_acc, c6_collab], contracts := [c5_contract],
    documents := [], payments := [c6_payment], notifications := [], emails := [] }

/-- C6 cycle: upload bill, reject, re-upload, approve. -/
def c6_final : DB :=
  let s1 := (upload_bill c6_db c6_collab "p1" (some "f1")).1
  let s2 := (reject_payment s1 c5_acc "p1" "IVA missing").1
  let s3 := (upload_bill s2 c6_collab "p1" (some "f2")).1
  (approve_payment s3 c5_acc "p1").1

/-- C7 fixture: a contract and one already uploaded document. -/
def c7_db : DB :=
  { users := [c2_collab],
    contracts := [c3_contract],
    documents := [c2_doc "d1" .cedula .approved],
    payments := [], notifications := [], emails := [] }

/-- C9 fixture: an INACTIVE collaborator user. -/
def c9_collab : User := { id := "u", email := "u@x", role := .collaborator, is_active := false }

/-- C9 fixture: the creating legal representative. -/
def c9_rep : User := { id := "rep", email := "rep@x", role := .legal_rep, is_active := true }

/-- C9 fixture database. -/
def c9_db : DB :=
  { users := [c9_rep, c9_collab], contracts := [], documents := [],
    payments := [], notifications := [], emails := [] }

/-- C6 witness fixture: a resubmitted payment that still carries the marker
of an earlier rejection. -/
def c6w_payment : Payment :=
  { id := "p9", contract_id := "c1", amount := 100, status := .pending_approval,
    created_by := "u", bill_file_id := some "b2", voucher_file_id := none,
    approved_by := none, rejected_by := some "old", rejection_reason := some "r0",
    confirmed_by := none }

/-- C6 witness fixture database. -/
def c6w_db : DB :=
  { users := [c5_acc, c6_collab], contracts := [c5_contract],
    documents := [], payments := [c6w_payment], notifications := [], emails := [] }

-- ===== generic lemmas about the store model =====

theorem find?_updateFirst (p : α → Bool) (f : α → α) (l : List α)
    (hf : ∀ x, p x = true → p (f x) = true) :
    (updateFirst p f l).find? p = (l.find? p).map f := by
  induction l with
  | nil => rfl
  | cons x xs ih =>
    by_cases hx : p x = true
    · simp [updateFirst, hx, List.find?, hf x hx]
    · have hx' : p x = false := by simpa using hx
      simp [updateFirst, hx', List.find?, ih]

theorem map_updateFirst (p : α → Bool) (f : α → α) (g : α → β) (l : List α)
    (hg : ∀ x, g (f x) = g x) :
    (updateFirst p f l).map g = l.map g := by
  induction l with
  | nil => rfl
  | cons x xs ih =>
    by_cases hx : p x = true
    · simp [updateFirst, hx, hg]
    · have hx' : p x = false := by simpa using hx
      simp [updateFirst, hx', ih]

theorem length_updateFirst (p : α → Bool) (f : α → α) (l : List α) :
    (updateFirst p f l).length = l.length := by
  induction l with
  | nil => rfl
  | cons x xs ih =>
    by_cases hx : p x = true <;> simp [updateFirst, hx, ih]

theorem pushNotification_users (db : DB) (a b c d : String) :
    (pushNotification db a b c d).users = db.users := rfl

theorem pushNotification_contracts (db : DB) (a b c d : String) :
    (pushNotification db a b c d).contracts = db.contracts := rfl

theorem pushNotification_documents (db : DB) (a b c d : String) :
    (pushNotification db a b c d).documents = db.documents := rfl

theorem pushNotification_payments (db : DB) (a b c d : String) :
    (pushNotification db a b c d).payments = db.payments := rfl

theorem pushEmail_users (db : DB) (a b : String) :
    (pushEmail db a b).users = db.users := rfl

theorem pushEmail_contracts (db : DB) (a b : String) :
    (pushEmail db a b).contracts = db.contracts := rfl

theorem pushEmail_documents (db : DB) (a b : String) :
    (pushEmail db a b).documents = db.documents := rfl

theorem pushEmail_payments (db : DB) (a b : String) :
    (pushEmail db a b).payments = db.payments := rfl

theorem pushEmail_notifications (db : DB) (a b : String) :
    (pushEmail db a b).notifications = db.notifications := rfl

theorem notifyEach_users (ts : List User) (db : DB) (t m n s : String) (w : Bool) :
    (notifyEach db ts t m n s w).users = db.users := by
  induction ts generalizing db with
  | nil => rfl
  | cons u us ih =>
    show (notifyEach _ us t m n s w).users = db.users
    rw [ih]
    by_cases hw : w = true <;> simp [hw, pushEmail, pushNotification]

theorem notifyEach_contracts (ts : List User) (db : DB) (t m n s : String) (w : Bool) :
    (notifyEach db ts t m n s w).contracts = db.contracts := by
  induction ts generalizing db with
  | nil => rfl
  | cons u us ih =>
    show (notifyEach _ us t m n s w).contracts = db.contracts
    rw [ih]
    by_cases hw : w = true <;> simp [hw, pushEmail, pushNotification]

theorem notifyEach_documents (ts : List User) (db : DB) (t m n s : String) (w : Bool) :
    (notifyEach db ts t m n s w).documents = db.documents := by
  induction ts generalizing db with
  | nil => rfl
  | cons u us ih =>
    show (notifyEach _ us t m n s w).documents = db.documents
    rw [ih]
    by_cases hw : w = true <;> simp [hw, pushEmail, pushNotification]

theorem notifyEach_payments (ts : List User) (db : DB) (t m n s : String) (w : Bool) :
    (notifyEach db ts t m n s w).payments = db.payments := by
  induction ts generalizing db with
  | nil => rfl
  | cons u us ih =>
    show (notifyEach _ us t m n s w).payments = db.payments
    rw [ih]
    by_cases hw : w = true <;> simp [hw, pushEmail, pushNotification]

-- ===== effect lemmas for the payment operations =====

theorem upload_bill_ok (db : DB) (actor : User) (pid fid : String) (payment : Payment)
    (hp : findPayment db pid = some payment)
    (hown : billOwnershipCheck db actor payment.contract_id = .ok ()) :
    (upload_bill db actor pid (some fid)).2 = .ok fid ∧
    findPayment (upload_bill db actor pid (some fid)).1 pid =
      some { payment with status := .pending_approval, bill_file_id := some fid } := by
  constructor
  · simp [upload_bill, hp, hown]
  · have h2 : (upload_bill db actor pid (some fid)).1.payments =
        updateFirst (fun p => p.id == pid)
          (fun p => { p with status := .pending_approval, bill_file_id := some fid })
          db.payments := by
      simp [upload_bill, hp, hown, notifyEach_payments]
    rw [findPayment, h2,
      find?_updateFirst (fun p => p.id == pid)
        (fun p => { p with status := .pending_approval, bill_file_id := some fid })
        db.payments (fun x hx => hx)]
    have hp' : db.payments.find? (fun p => p.id == pid) = some payment := hp
    rw [hp']
    rfl

theorem approve_payment_ok (db : DB) (actor : User) (pid : String)
    (payment : Payment) (contract : Contract) (collab : User)
    (hrole : has_permission actor.role .accountant = true)
    (hp : findPayment db pid = some payment)
    (hstatus : payment.status = .pending_approval)
    (hc : findContract db payment.contract_id = some contract)
    (hcu : findUser db contract.collaborator_id = some collab) :
    (approve_payment db actor pid).2 = .ok () ∧
    findPayment (approve_payment db actor pid).1 pid =
      some { payment with status := .approved, approved_by := some actor.id } := by
  have hp' : db.payments.find? (fun p => p.id == pid) = some payment := hp
  have hc' : db.contracts.find? (fun c => c.id == payment.contract_id) = some contract := hc
  have hcu' : db.users.find? (fun u => u.id == contract.collaborator_id) = some collab := hcu
  constructor
  · simp [approve_payment, findPayment, findContract, findUser, hrole, hp', hstatus,
      hc', hcu', pushNotification, pushEmail]
  · have h2 : (approve_payment db actor pid).1.payments =
        updateFirst (fun p => p.id == pid)
          (fun p => { p with status := .approved, approved_by := some actor.id })
          db.payments := by
      simp [approve_payment, findPayment, findContract, findUser, hrole, hp', hstatus,
        hc', hcu', pushNotification, pushEmail]
    rw [findPayment, h2,
      find?_updateFirst (fun p => p.id == pid)
        (fun p => { p with status := .approved, approved_by := some actor.id })
        db.payments (fun x hx => hx)]
    rw [hp']
    rfl

theorem reject_payment_ok (db : DB) (actor : User) (pid reason : String)
    (payment : Payment) (contract : Contract) (collab : User)
    (hrole : has_permission actor.role .accountant = true)
    (hp : findPayment db pid = some payment)
    (hstatus : payment.status = .pending_approval)
    (hc : findContract db payment.contract_id = some contract)
    (hcu : findUser db contract.collaborator_id = some collab) :
    (reject_payment db actor pid reason).2 = .ok () ∧
    findPayment (reject_payment db actor pid reason).1 pid =
      some { payment with status := .rejected, rejection_reason := some reason,
                          rejected_by := some actor.id } := by
  have hp' : db.payments.find? (fun p => p.id == pid) = some payment := hp
  have hc' : db.contracts.find? (fun c => c.id == payment.contract_id) = some contract := hc
  have hcu' : db.users.find? (fun u => u.id == contract.collaborator_id) = some collab := hcu
  constructor
  · simp [reject_payment, findPayment, findContract, findUser, hrole, hp', hstatus,
      hc', hcu', pushNotification, pushEmail]
  · have h2 : (reject_payment db actor pid reason).1.payments =
        updateFirst (fun p => p.id == pid)
          (fun p => { p with status := .rejected, rejection_reason := some reason,
                             rejected_by := some actor.id })
          db.payments := by
      simp [reject_payment, findPayment, findContract, findUser, hrole, hp', hstatus,
        hc', hcu', pushNotification, pushEmail]
    rw [findPayment, h2,
      find?_updateFirst (fun p => p.id == pid)
        (fun p => { p with status := .rejected, rejection_reason := some reason,
                           rejected_by := some actor.id })
        db.payments (fun x hx => hx)]
    rw [hp']
    rfl

theorem confirm_payment_ok (db : DB) (actor : User) (pid fid : String)
    (payment : Payment) (contract : Contract) (collab : User)
    (hrole : has_permission actor.role .accountant = true)
    (hp : findPayment db pid = some payment)
    (hstatus : payment.status = .approved)
    (hc : findContract db payment.contract_id = some contract)
    (hcu : findUser db contract.collaborator_id = some collab) :
    (confirm_payment db actor pid true (some fid)).2 = .ok () ∧
    findPayment (confirm_payment db actor pid true (some fid)).1 pid =
      some { payment with status := .paid, voucher_file_id := some fid,
                          confirmed_by := some actor.id } := by
  have hp' : db.payments.find? (fun p => p.id == pid) = some payment := hp
  have hc' : db.contracts.find? (fun c => c.id == payment.contract_id) = some contract := hc
  have hcu' : db.users.find? (fun u => u.id == contract.collaborator_id) = some collab := hcu
  constructor
  · simp [confirm_payment, findPayment, findContract, findUser, hrole, hp', hstatus,
      hc', hcu', pushNotification, pushEmail]
  · have h2 : (confirm_payment db actor pid true (some fid)).1.payments =
        updateFirst (fun p => p.id == pid)
          (fun p => { p with status := .paid, voucher_file_id := some fid,
                             confirmed_by := some actor.id })
          db.payments := by
      simp [confirm_payment, findPayment, findContract, findUser, hrole, hp', hstatus,
        hc', hcu', pushNotification, pushEmail]
    rw [findPayment, h2,
      find?_updateFirst (fun p => p.id == pid)
        (fun p => { p with status := .paid, voucher_file_id := some fid,
                           confirmed_by := some actor.id })
        db.payments (fun x hx => hx)]
    rw [hp']
    rfl

theorem create_payment_ok (db : DB) (actor : User) (cid : String) (amount : Nat)
    (freshId : String) (contract : Contract)
    (hc : findContract db cid = some contract)
    (hown : (actor.role == .collaborator && contract.collaborator_id != actor.id) = false) :
    (create_payment db actor cid amount freshId).2 =
      .ok { id := freshId, contract_id := cid, amount := amount, status := .draft,
            created_by := actor.id, bill_file_id := none, voucher_file_id := none,
            approved_by := none, rejected_by := none, rejection_reason := none,
            confirmed_by := none } ∧
    (create_payment db actor cid amount freshId).1.payments =
      db.payments ++
        [{ id := freshId, contract_id := cid, amount := amount, status := .draft,
           created_by := actor.id, bill_file_id := none, voucher_file_id := none,
           approved_by := none, rejected_by := none, rejection_reason := none,
           confirmed_by := none }] := by
  have hc' : db.contracts.find? (fun c => c.id == cid) = some contract := hc
  constructor
  · simp [create_payment, findContract, hc', hown]
  · simp [create_payment, findContract, hc', hown]

theorem create_contract_ok (db : DB) (actor : User) (collab_id title freshId : String)
    (collab : User)
    (hrole : has_permission actor.role .legal_rep = true)
    (hfind : db.users.find? (fun u => u.id == collab_id && u.role == .collaborator) =
      some collab) :
    (create_contract db actor collab_id title freshId).2 =
      .ok { id := freshId, collaborator_id := collab_id, title := title,
            status := .pending_documents, created_by := actor.id,
            approved_by := none, contract_file_id := none, signed_file_id := none } ∧
    (create_contract db actor collab_id title freshId).1.contracts =
      db.contracts ++
        [{ id := freshId, collaborator_id := collab_id, title := title,
           status := .pending_documents, created_by := actor.id,
           approved_by := none, contract_file_id := none, signed_file_id := none }] ∧
    (create_contract db actor collab_id title freshId).1.notifications =
      db.notifications ++
        [{ user_id := collab_id, title := "Nuevo Contrato Creado",
           message := "Se ha creado un nuevo contrato: " ++ title ++
             ". Por favor cargue los documentos requeridos.",
           notification_type := "contract_created", read := false }] := by
  refine ⟨?_, ?_, ?_⟩ <;>
    simp [create_contract, hrole, hfind, pushNotification, pushEmail]

-- ===== claim theorems =====

/-- C8: for all pairs of roles, `has_permission` (the `authorizes` check)
returns true exactly when the actor role's rank is ≥ the required role's
rank under SUPERADMIN=5, ADMIN=4, LEGAL_REP=3, ACCOUNTANT=2, COLLABORATOR=1
(`rankSpec` is written from the spec text); the check is a pure function of
its two arguments, so it has no side effects. -/
theorem authorizes_iff_rank_ge (actorRole requiredRole : UserRole) :
    has_permission actorRole requiredRole = true ↔
      rankSpec requiredRole ≤ rankSpec actorRole := by
  cases actorRole <;> cases requiredRole <;>
    simp [has_permission, role_hierarchy, rankSpec]

/-- C10: the three names referenced by models.py OPTIONAL_DOCUMENTS
(CERT_LABORAL, CERT_EDUCATIVA, LICENCIA) are not members of the DocumentType
enumeration, so evaluating that list is an AttributeError and the module
cannot be loaded as written; models.py REQUIRED_DOCUMENTS evaluates to a
four-element list distinct from the six-element server.py REQUIRED_DOCUMENTS
that the workflow operations use, and the server.py catalogs resolve
entirely to defined members. -/
theorem models_optional_documents_unloadable :
    evalDocumentList models_OPTIONAL_DOCUMENT_NAMES = none ∧
    (∀ n ∈ models_OPTIONAL_DOCUMENT_NAMES, DocumentType.fromName n = none) ∧
    evalDocumentList models_REQUIRED_DOCUMENT_NAMES =
      some [.cedula, .rut, .cert_bancaria, .antecedentes] ∧
    evalDocumentList models_REQUIRED_DOCUMENT_NAMES ≠ some REQUIRED_DOCUMENTS ∧
    REQUIRED_DOCUMENTS.length = 6 ∧ OPTIONAL_DOCUMENTS.length = 3 := by
  refine ⟨rfl, ?_, rfl, ?_, rfl, rfl⟩
  · decide
  · decide

/-- C1 counterexample: the claim says upload_bill on a payment whose status
is not DRAFT or REJECTED (here: PAID) fails with InvalidState and changes
nothing; in the code upload_bill never reads the payment status, so the call
succeeds and moves the PAID payment to PENDING_APPROVAL with a new bill file
reference. -/
theorem upload_bill_no_status_guard_counterexample :
    c1_payment.status = .paid ∧
    (upload_bill c1_db c1_admin "p1" (some "newbill")).2 = .ok "newbill" ∧
    findPayment (upload_bill c1_db c1_admin "p1" (some "newbill")).1 "p1" =
      some { c1_payment with status := .pending_approval,
                             bill_file_id := some "newbill" } := by
  refine ⟨rfl, ?_, ?_⟩ <;> decide

/-- C5 counterexample: the claim says rejecting with an empty reason fails
with ValidationFailed and leaves the payment unchanged; the code performs no
non-emptiness check, so the rejection succeeds and stores the empty string
verbatim. -/
theorem reject_payment_empty_reason_counterexample :
    (reject_payment c5_db c5_acc "p1" "").2 = .ok () ∧
    findPayment (reject_payment c5_db c5_acc "p1" "").1 "p1" =
      some { c5_payment with status := .rejected, rejection_reason := some "",
                             rejected_by := some "acc" } := by
  refine ⟨?_, ?_⟩ <;> decide

/-- C6 counterexample: after upload bill → reject → re-upload → approve, the
final payment is APPROVED with BOTH approved_by and rejected_by set: the
rejection never cleared the markers and the approval does not clear
rejected_by, contradicting the exactly-one invariant. -/
theorem payment_markers_both_set_counterexample :
    findPayment c6_final "p1" =
      some { c6_payment with status := .approved,
                             bill_file_id := some "f2",
                             approved_by := some "acc",
                             rejected_by := some "acc",
                             rejection_reason := some "IVA missing" } := by
  decide

/-- C9 counterexample: the referenced collaborator exists but is inactive;
the claim says creation must fail, yet the code's query matches only id and
role, so the contract is created anyway. -/
theorem create_contract_ignores_is_active_counterexample :
    c9_collab.is_active = false ∧
    (create_contract c9_db c9_rep "u" "T" "c1").2 =
      .ok { id := "c1", collaborator_id := "u", title := "T",
            status := .pending_documents, created_by := "rep",
            approved_by := none, contract_file_id := none,
            signed_file_id := none } ∧
    (create_contract c9_db c9_rep "u" "T" "c1").1.contracts.length = 1 := by
  refine ⟨rfl, ?_, ?_⟩ <;> decide

/-- C2 counterexample: approving the sixth and last required document of a
contract UNDER_REVIEW does advance the contract to PENDING_APPROVAL, but the
only Notification record created is the per-review "Documento Revisado" one
— no "documents complete" Notification record exists; the completeness
signal is an email instead. -/
theorem documents_complete_no_notification_counterexample :
    (review_document c2_db c2_admin "d6" (some .approved) none).2 = .ok () ∧
    findContract (review_document c2_db c2_admin "d6" (some .approved) none).1 "c1" =
      some { c2_contract with status := .pending_approval } ∧
    (review_document c2_db c2_admin "d6" (some .approved) none).1.notifications =
      [{ user_id := "u", title := "Documento Revisado",
         message := "Su documento ha sido APROBADO.",
         notification_type := "document_reviewed", read := false }] ∧
    (review_document c2_db c2_admin "d6" (some .approved) none).1.emails =
      [{ recipient := "u@x", subject := "Documentos Completos - Contrato T" }] := by
  refine ⟨?_, ?_, ?_, ?_⟩ <;> decide

/-- C1 (amended): upload_bill checks existence of the payment, ownership,
and the vault write, but no status precondition at all: for a payment in ANY
current status it succeeds, unconditionally setting the status to
PENDING_APPROVAL and storing the bill file reference (all other fields
unchanged). -/
theorem upload_bill_any_status (db : DB) (actor : User) (pid fid : String)
    (payment : Payment)
    (hp : findPayment db pid = some payment)
    (hown : billOwnershipCheck db actor payment.contract_id = .ok ()) :
    (upload_bill db actor pid (some fid)).2 = .ok fid ∧
    findPayment (upload_bill db actor pid (some fid)).1 pid =
      some { payment with status := .pending_approval, bill_file_id := some fid } :=
  upload_bill_ok db actor pid fid payment hp hown

/-- C1 witness: the amended theorem applied to a concrete DRAFT payment. -/
theorem upload_bill_any_status_witness :
    findPayment c1w_db "p2" = some c1w_payment ∧
    billOwnershipCheck c1w_db c1_admin c1w_payment.contract_id = .ok () ∧
    ((upload_bill c1w_db c1_admin "p2" (some "b")).2 = .ok "b" ∧
     findPayment (upload_bill c1w_db c1_admin "p2" (some "b")).1 "p2" =
       some { c1w_payment with status := .pending_approval, bill_file_id := some "b" }) :=
  ⟨by decide, by decide,
   upload_bill_any_status c1w_db c1_admin "p2" "b" c1w_payment (by decide) (by decide)⟩

/-- C5 (amended): on a PENDING_APPROVAL payment, reject_payment succeeds for
EVERY reason string — the empty string included, since no non-emptiness
validation exists — setting status REJECTED and recording the rejecting
actor and the reason verbatim. -/
theorem reject_payment_any_reason (db : DB) (actor : User) (pid reason : String)
    (payment : Payment) (contract : Contract) (collab : User)
    (hrole : has_permission actor.role .accountant = true)
    (hp : findPayment db pid = some payment)
    (hstatus : payment.status = .pending_approval)
    (hc : findContract db payment.contract_id = some contract)
    (hcu : findUser db contract.collaborator_id = some collab) :
    (reject_payment db actor pid reason).2 = .ok () ∧
    findPayment (reject_payment db actor pid reason).1 pid =
      some { payment with status := .rejected, rejection_reason := some reason,
                          rejected_by := some actor.id } :=
  reject_payment_ok db actor pid reason payment contract collab hrole hp hstatus hc hcu

/-- C5 witness: the amended theorem applied to a concrete payment with a
non-empty reason. -/
theorem reject_payment_any_reason_witness :
    has_permission c5_acc.role .accountant = true ∧
    findPayment c5_db "p1" = some c5_payment ∧
    c5_payment.status = .pending_approval ∧
    findContract c5_db c5_payment.contract_id = some c5_contract ∧
    findUser c5_db c5_contract.collaborator_id = some c2_collab ∧
    ((reject_payment c5_db c5_acc "p1" "IVA missing").2 = .ok () ∧
     findPayment (reject_payment c5_db c5_acc "p1" "IVA missing").1 "p1" =
       some { c5_payment with status := .rejected,
                              rejection_reason := some "IVA missing",
                              rejected_by := some "acc" }) :=
  ⟨by decide, by decide, by decide, by decide, by decide,
   reject_payment_any_reason c5_db c5_acc "p1" "IVA missing" c5_payment c5_contract
     c2_collab (by decide) (by decide) (by decide) (by decide) (by decide)⟩

/-- C6 (amended): once a payment leaves PENDING_APPROVAL the marker of the
taken decision is set, but the opposite marker is never cleared by any of
the operations: approve_payment sets approved_by and preserves rejected_by,
reject_payment sets rejected_by and preserves approved_by, and upload_bill
(resubmission) preserves both — so a reject, resubmit, approve cycle leaves
both markers set simultaneously. -/
theorem payment_markers_not_cleared :
    (∀ (db : DB) (actor : User) (pid : String) (payment : Payment)
       (contract : Contract) (collab : User),
      has_permission actor.role .accountant = true →
      findPayment db pid = some payment →
      payment.status = .pending_approval →
      findContract db payment.contract_id = some contract →
      findUser db contract.collaborator_id = some collab →
      (findPayment (approve_payment db actor pid).1 pid).map Payment.approved_by =
        some (some actor.id) ∧
      (findPayment (approve_payment db actor pid).1 pid).map Payment.rejected_by =
        some payment.rejected_by) ∧
    (∀ (db : DB) (actor : User) (pid reason : String) (payment : Payment)
       (contract : Contract) (collab : User),
      has_permission actor.role .accountant = true →
      findPayment db pid = some payment →
      payment.status = .pending_approval →
      findContract db payment.contract_id = some contract →
      findUser db contract.collaborator_id = some collab →
      (findPayment (reject_payment db actor pid reason).1 pid).map Payment.rejected_by =
        some (some actor.id) ∧
      (findPayment (reject_payment db actor pid reason).1 pid).map Payment.approved_by =
        some payment.approved_by) ∧
    (∀ (db : DB) (actor : User) (pid fid : String) (payment : Payment),
      findPayment db pid = some payment →
      billOwnershipCheck db actor payment.contract_id = .ok () →
      (findPayment (upload_bill db actor pid (some fid)).1 pid).map Payment.approved_by =
        some payment.approved_by ∧
      (findPayment (upload_bill db actor pid (some fid)).1 pid).map Payment.rejected_by =
        some payment.rejected_by) := by
  refine ⟨?_, ?_, ?_⟩
  · intro db actor pid payment contract collab hrole hp hstatus hc hcu
    have h := approve_payment_ok db actor pid payment contract collab hrole hp hstatus hc hcu
    rw [h.2]
    exact ⟨rfl, rfl⟩
  · intro db actor pid reason payment contract collab hrole hp hstatus hc hcu
    have h := reject_payment_ok db actor pid reason payment contract collab hrole hp hstatus hc hcu
    rw [h.2]
    exact ⟨rfl, rfl⟩
  · intro db actor pid fid payment hp hown
    have h := upload_bill_ok db actor pid fid payment hp hown
    rw [h.2]
    exact ⟨rfl, rfl⟩

/-- C6 witness: the approve clause of the amended theorem applied to a
resubmitted payment that still carries a rejection marker — after approval
both approved_by and rejected_by are set. -/
theorem payment_markers_not_cleared_witness :
    has_permission c5_acc.role .accountant = true ∧
    findPayment c6w_db "p9" = some c6w_payment ∧
    c6w_payment.status = .pending_approval ∧
    findContract c6w_db c6w_payment.contract_id = some c5_contract ∧
    findUser c6w_db c5_contract.collaborator_id = some c6_collab ∧
    ((findPayment (approve_payment c6w_db c5_acc "p9").1 "p9").map Payment.approved_by =
       some (some "acc") ∧
     (findPayment (approve_payment c6w_db c5_acc "p9").1 "p9").map Payment.rejected_by =
       some (some "old")) :=
  ⟨by decide, by decide, by decide, by decide, by decide,
   payment_markers_not_cleared.1 c6w_db c5_acc "p9" c6w_payment c5_contract c6_collab
     (by decide) (by decide) (by decide) (by decide) (by decide)⟩

/-- C9 (amended): create_contract succeeds exactly when a user with the
given id and role COLLABORATOR exists — the query does not test the active
flag, so an inactive collaborator is accepted; on success the contract is
created with initial status PENDING_DOCUMENTS and one notification is
created for the collaborator; when no such user exists it fails with
NotFound and the database is unchanged. -/
theorem create_contract_role_only (db : DB) (actor : User)
    (collab_id title freshId : String)
    (hrole : has_permission actor.role .legal_rep = true) :
    (∀ collab : User,
      db.users.find? (fun u => u.id == collab_id && u.role == .collaborator) =
          some collab →
      (create_contract db actor collab_id title freshId).2 =
        .ok { id := freshId, collaborator_id := collab_id, title := title,
              status := .pending_documents, created_by := actor.id,
              approved_by := none, contract_file_id := none,
              signed_file_id := none } ∧
      (create_contract db actor collab_id title freshId).1.contracts =
        db.contracts ++
          [{ id := freshId, collaborator_id := collab_id, title := title,
             status := .pending_documents, created_by := actor.id,
             approved_by := none, contract_file_id := none,
             signed_file_id := none }] ∧
      (create_contract db actor collab_id title freshId).1.notifications =
        db.notifications ++
          [{ user_id := collab_id, title := "Nuevo Contrato Creado",
             message := "Se ha creado un nuevo contrato: " ++ title ++
               ". Por favor cargue los documentos requeridos.",
             notification_type := "contract_created", read := false }]) ∧
    (db.users.find? (fun u => u.id == collab_id && u.role == .collaborator) = none →
      (create_contract db actor collab_id title freshId).2 =
        .error (.notFound "Colaborador no encontrado") ∧
      (create_contract db actor collab_id title freshId).1 = db) := by
  constructor
  · intro collab hfind
    exact create_contract_ok db actor collab_id title freshId collab hrole hfind
  · intro hnone
    constructor <;> simp [create_contract, hrole, hnone]

/-- C9 witness: the amended theorem applied with an INACTIVE collaborator —
creation succeeds regardless of the active flag. -/
theorem create_contract_role_only_witness :
    has_permission c9_rep.role .legal_rep = true ∧
    c9_db.users.find? (fun u => u.id == "u" && u.role == .collaborator) =
      some c9_collab ∧
    c9_collab.is_active = false ∧
    ((create_contract c9_db c9_rep "u" "T2" "c2").2 =
        .ok { id := "c2", collaborator_id := "u", title := "T2",
              status := .pending_documents, created_by := "rep",
              approved_by := none, contract_file_id := none,
              signed_file_id := none } ∧
     (create_contract c9_db c9_rep "u" "T2" "c2").1.contracts =
        c9_db.contracts ++
          [{ id := "c2", collaborator_id := "u", title := "T2",
             status := .pending_documents, created_by := "rep",
             approved_by := none, contract_file_id := none,
             signed_file_id := none }] ∧
     (create_contract c9_db c9_rep "u" "T2" "c2").1.notifications =
        c9_db.notifications ++
          [{ user_id := "u", title := "Nuevo Contrato Creado",
             message := "Se ha creado un nuevo contrato: " ++ "T2" ++
               ". Por favor cargue los documentos requeridos.",
             notification_type := "contract_created", read := false }]) :=
  ⟨by decide, by decide, rfl,
   (create_contract_role_only c9_db c9_rep "u" "T2" "c2" (by decide)).1
     c9_collab (by decide)⟩

/-- C4: approve_contract succeeds exactly when the contract is currently
PENDING_APPROVAL, a file is supplied, and the vault write succeeds; on
success one atomic update sets status APPROVED and records the approver and
the file reference; on any failure (missing file, wrong status, vault
failure) the database — hence the contract's status, approved_by and
contract_file_id — is unchanged, the file write being validated before any
status write. -/
theorem approve_contract_spec (db : DB) (actor : User) (cid : String)
    (hasFile : Bool) (up : Option String) (contract : Contract) (collab : User)
    (hrole : has_permission actor.role .legal_rep = true)
    (hc : findContract db cid = some contract)
    (hcu : findUser db contract.collaborator_id = some collab) :
    ((approve_contract db actor cid hasFile up).2 = .ok () ↔
      hasFile = true ∧ contract.status = .pending_approval ∧ up.isSome = true) ∧
    (∀ fid, hasFile = true → contract.status = .pending_approval → up = some fid →
      findContract (approve_contract db actor cid hasFile up).1 cid =
        some { contract with status := .approved, approved_by := some actor.id,
                             contract_file_id := some fid }) ∧
    ((approve_contract db actor cid hasFile up).2 ≠ .ok () →
      (approve_contract db actor cid hasFile up).1 = db) := by
  have hc' : db.contracts.find? (fun c => c.id == cid) = some contract := hc
  have hcu' : db.users.find? (fun u => u.id == contract.collaborator_id) = some collab := hcu
  by_cases hf : hasFile = true
  · by_cases hs : contract.status = .pending_approval
    · cases up with
      | none =>
        refine ⟨?_, ?_, ?_⟩
        · simp [approve_contract, hrole, hf, hc', findContract, hs]
        · intro fid _ _ hup
          exact absurd hup (by simp)
        · intro _
          simp [approve_contract, hrole, hf, hc', findContract, hs]
      | some fid =>
        refine ⟨?_, ?_, ?_⟩
        · simp [approve_contract, hrole, hf, hc', hcu', findContract, findUser, hs,
            pushNotification, pushEmail]
        · intro fid2 _ _ hup
          cases hup
          have h2 : (approve_contract db actor cid hasFile (some fid)).1.contracts =
              updateFirst (fun c => c.id == cid)
                (fun c => { c with status := .approved, approved_by := some actor.id,
                                   contract_file_id := some fid })
                db.contracts := by
            simp [approve_contract, hrole, hf, hc', hcu', findContract, findUser, hs,
              pushNotification, pushEmail]
          rw [findContract, h2,
            find?_updateFirst (fun c => c.id == cid)
              (fun c => { c with status := .approved, approved_by := some actor.id,
                                 contract_file_id := some fid })
              db.contracts (fun x hx => hx)]
          rw [hc']
          rfl
        · intro hne
          exact absurd (by simp [approve_contract, hrole, hf, hc', hcu', findContract,
            findUser, hs, pushNotification, pushEmail]) hne
    · refine ⟨?_, ?_, ?_⟩
      · have hbool : (contract.status != ContractStatus.pending_approval) = true := by
          simpa using hs
        simp [approve_contract, hrole, hf, hc', findContract, hbool, hs]
      · intro fid _ hs2 _
        exact absurd hs2 hs
      · intro _
        have hbool : (contract.status != ContractStatus.pending_approval) = true := by
          simpa using hs
        simp [approve_contract, hrole, hf, hc', findContract, hbool]
  · have hf' : hasFile = false := by simpa using hf
    refine ⟨?_, ?_, ?_⟩
    · simp [approve_contract, hrole, hf']
    · intro fid hff _ _
      exact absurd hff hf
    · intro _
      simp [approve_contract, hrole, hf']

/-- C4 witness: the theorem applied to a concrete PENDING_APPROVAL contract
with a supplied file and a successful vault write. -/
theorem approve_contract_spec_witness :
    has_permission c4_rep.role .legal_rep = true ∧
    findContract c4_db "c1" = some c4_contract ∧
    findUser c4_db c4_contract.collaborator_id = some c2_collab ∧
    findContract (approve_contract c4_db c4_rep "c1" true (some "file1")).1 "c1" =
      some { c4_contract with status := .approved, approved_by := some "rep",
                              contract_file_id := some "file1" } :=
  ⟨by decide, by decide, by decide,
   (approve_contract_spec c4_db c4_rep "c1" true (some "file1") c4_contract c2_collab
       (by decide) (by decide) (by decide)).2.1 "file1" rfl (by decide) rfl⟩

/-- C3: for a contract in PENDING_DOCUMENTS, a successful document upload
advances the contract to UNDER_REVIEW exactly when the required set (by
type, regardless of approval status) is fully present afterwards; when at
least one required type is still absent the contract's record is unchanged
(still PENDING_DOCUMENTS). -/
theorem upload_document_presence_advance (db : DB) (actor : User) (cid : String)
    (dt : DocumentType) (fname fid did : String) (contract : Contract)
    (hc : findContract db cid = some contract)
    (hstatus : contract.status = .pending_documents)
    (hown : (actor.role == .collaborator && contract.collaborator_id != actor.id) = false) :
    (∃ docId,
      (upload_contract_document db actor cid dt fname (some fid) did).2 = .ok docId) ∧
    (allRequiredPresent
        (upload_contract_document db actor cid dt fname (some fid) did).1.documents cid
        = true →
      findContract (upload_contract_document db actor cid dt fname (some fid) did).1 cid =
        some { contract with status := .under_review }) ∧
    (allRequiredPresent
        (upload_contract_document db actor cid dt fname (some fid) did).1.documents cid
        = false →
      findContract (upload_contract_document db actor cid dt fname (some fid) did).1 cid =
        some contract) := by
  have hc' : db.contracts.find? (fun c => c.id == cid) = some contract := hc
  cases hex : db.documents.find? (fun d => d.contract_id == cid && d.document_type == dt) with
  | some ex =>
    by_cases hall : allRequiredPresent
        (updateFirst (fun d => d.id == ex.id)
          (fun d => { d with file_name := fname, file_id := fid, status := .uploaded,
                             review_notes := none, reviewed_by := none })
          db.documents) cid = true
    · have hdocs : (upload_contract_document db actor cid dt fname (some fid) did).1.documents =
          updateFirst (fun d => d.id == ex.id)
            (fun d => { d with file_name := fname, file_id := fid, status := .uploaded,
                               review_notes := none, reviewed_by := none })
            db.documents := by
        simp [upload_contract_document, findContract, findDocumentByKey, hc', hown, hex,
          hstatus, hall, notifyEach_documents]
      have hcontracts : (upload_contract_document db actor cid dt fname (some fid) did).1.contracts =
          updateFirst (fun c => c.id == cid)
            (fun c => { c with status := .under_review }) db.contracts := by
        simp [upload_contract_document, findContract, findDocumentByKey, hc', hown, hex,
          hstatus, hall, notifyEach_contracts]
      refine ⟨⟨ex.id, ?_⟩, ?_, ?_⟩
      · simp [upload_contract_document, findContract, findDocumentByKey, hc', hown, hex,
          hstatus]
      · intro _
        rw [findContract, hcontracts,
          find?_updateFirst (fun c => c.id == cid)
            (fun c => { c with status := .under_review }) db.contracts (fun x hx => hx)]
        rw [hc']
        rfl
      · intro hfalse
        rw [hdocs] at hfalse
        exact absurd hall (by simp [hfalse])
    · have hall' : allRequiredPresent
          (updateFirst (fun d => d.id == ex.id)
            (fun d => { d with file_name := fname, file_id := fid, status := .uploaded,
                               review_notes := none, reviewed_by := none })
            db.documents) cid = false := by
        simpa using hall
      have hdocs : (upload_contract_document db actor cid dt fname (some fid) did).1.documents =
          updateFirst (fun d => d.id == ex.id)
            (fun d => { d with file_name := fname, file_id := fid, status := .uploaded,
                               review_notes := none, reviewed_by := none })
            db.documents := by
        simp [upload_contract_document, findContract, findDocumentByKey, hc', hown, hex,
          hstatus, hall', notifyEach_documents]
      have hcontracts : (upload_contract_document db actor cid dt fname (some fid) did).1.contracts =
          db.contracts := by
        simp [upload_contract_document, findContract, findDocumentByKey, hc', hown, hex,
          hstatus, hall', notifyEach_contracts]
      refine ⟨⟨ex.id, ?_⟩, ?_, ?_⟩
      · simp [upload_contract_document, findContract, findDocumentByKey, hc', hown, hex,
          hstatus]
      · intro htrue
        rw [hdocs] at htrue
        exact absurd htrue (by simp [hall'])
      · intro _
        rw [findContract, hcontracts]
        exact hc'
  | none =>
    by_cases hall : allRequiredPresent
        (db.documents ++
          [{ id := did, document_type := dt, contract_id := cid, file_name := fname,
             file_id := fid, status := .uploaded, uploaded_by := actor.id,
             reviewed_by := none, review_notes := none }]) cid = true
    · have hdocs : (upload_contract_document db actor cid dt fname (some fid) did).1.documents =
          db.documents ++
            [{ id := did, document_type := dt, contract_id := cid, file_name := fname,
               file_id := fid, status := .uploaded, uploaded_by := actor.id,
               reviewed_by := none, review_notes := none }] := by
        simp [upload_contract_document, findContract, findDocumentByKey, hc', hown, hex,
          hstatus, hall, notifyEach_documents]
      have hcontracts : (upload_contract_document db actor cid dt fname (some fid) did).1.contracts =
          updateFirst (fun c => c.id == cid)
            (fun c => { c with status := .under_review }) db.contracts := by
        simp [upload_contract_document, findContract, findDocumentByKey, hc', hown, hex,
          hstatus, hall, notifyEach_contracts]
      refine ⟨⟨did, ?_⟩, ?_, ?_⟩
      · simp [upload_contract_document, findContract, findDocumentByKey, hc', hown, hex,
          hstatus]
      · intro _
        rw [findContract, hcontracts,
          find?_updateFirst (fun c => c.id == cid)
            (fun c => { c with status := .under_review }) db.contracts (fun x hx => hx)]
        rw [hc']
        rfl
      · intro hfalse
        rw [hdocs] at hfalse
        exact absurd hall (by simp [hfalse])
    · have hall' : allRequiredPresent
          (db.documents ++
            [{ id := did, document_type := dt, contract_id := cid, file_name := fname,
               file_id := fid, status := .uploaded, uploaded_by := actor.id,
               reviewed_by := none, review_notes := none }]) cid = false := by
        simpa using hall
      have hdocs : (upload_contract_document db actor cid dt fname (some fid) did).1.documents =
          db.documents ++
            [{ id := did, document_type := dt, contract_id := cid, file_name := fname,
               file_id := fid, status := .uploaded, uploaded_by := actor.id,
               reviewed_by := none, review_notes := none }] := by
        simp [upload_contract_document, findContract, findDocumentByKey, hc', hown, hex,
          hstatus, hall', notifyEach_documents]
      have hcontracts : (upload_contract_document db actor cid dt fname (some fid) did).1.contracts =
          db.contracts := by
        simp [upload_contract_document, findContract, findDocumentByKey, hc', hown, hex,
          hstatus, hall', notifyEach_contracts]
      refine ⟨⟨did, ?_⟩, ?_, ?_⟩
      · simp [upload_contract_document, findContract, findDocumentByKey, hc', hown, hex,
          hstatus]
      · intro htrue
        rw [hdocs] at htrue
        exact absurd htrue (by simp [hall'])
      · intro _
        rw [findContract, hcontracts]
        exact hc'

/-- C3 witness: uploading the sixth missing required type (the first five
being present) advances the concrete contract to UNDER_REVIEW. -/
theorem upload_document_presence_advance_witness :
    findContract c3_db "c1" = some c3_contract ∧
    c3_contract.status = .pending_documents ∧
    allRequiredPresent
      (upload_contract_document c3_db c2_collab "c1" .propuesta_trabajo "f.pdf"
        (some "fid6") "d6").1.documents "c1" = true ∧
    findContract
      (upload_contract_document c3_db c2_collab "c1" .propuesta_trabajo "f.pdf"
        (some "fid6") "d6").1 "c1" =
      some { c3_contract with status := .under_review } :=
  ⟨by decide, rfl, by decide,
   (upload_document_presence_advance c3_db c2_collab "c1" .propuesta_trabajo "f.pdf"
       "fid6" "d6" c3_contract (by decide) rfl (by decide)).2.1 (by decide)⟩

/-- C7: uploading a document for a (contract, type) pair that already has a
record updates that record in place — replacing file name and reference,
setting status UPLOADED, clearing reviewer and notes — and never inserts
(the collection keeps its length); a first upload appends one new UPLOADED
record; and the pairwise uniqueness of (contract_id, document_type) is
preserved by every upload. -/
theorem upload_document_unique_key (db : DB) (actor : User) (cid : String)
    (dt : DocumentType) (fname fid did : String) (contract : Contract)
    (hc : findContract db cid = some contract)
    (hown : (actor.role == .collaborator && contract.collaborator_id != actor.id) = false)
    (hu : documentsKeyUnique db.documents) :
    documentsKeyUnique
      (upload_contract_document db actor cid dt fname (some fid) did).1.documents ∧
    (∀ ex, findDocumentByKey db cid dt = some ex →
      (upload_contract_document db actor cid dt fname (some fid) did).1.documents =
        updateFirst (fun d => d.id == ex.id)
          (fun d => { d with file_name := fname, file_id := fid, status := .uploaded,
                             review_notes := none, reviewed_by := none })
          db.documents ∧
      (upload_contract_document db actor cid dt fname (some fid) did).1.documents.length =
        db.documents.length ∧
      (findDocumentById db ex.id = some ex →
        findDocumentById (upload_contract_document db actor cid dt fname (some fid) did).1
            ex.id =
          some { ex with file_name := fname, file_id := fid, status := .uploaded,
                         review_notes := none, reviewed_by := none })) ∧
    (findDocumentByKey db cid dt = none →
      (upload_contract_document db actor cid dt fname (some fid) did).1.documents =
        db.documents ++
          [{ id := did, document_type := dt, contract_id := cid, file_name := fname,
             file_id := fid, status := .uploaded, uploaded_by := actor.id,
             reviewed_by := none, review_notes := none }]) := by
  have hc' : db.contracts.find? (fun c => c.id == cid) = some contract := hc
  cases hex : db.documents.find? (fun d => d.contract_id == cid && d.document_type == dt) with
  | some ex =>
    have hdocs : (upload_contract_document db actor cid dt fname (some fid) did).1.documents =
        updateFirst (fun d => d.id == ex.id)
          (fun d => { d with file_name := fname, file_id := fid, status := .uploaded,
                             review_notes := none, reviewed_by := none })
          db.documents := by
      simp [upload_contract_document, findContract, findDocumentByKey, hc', hown, hex,
        notifyEach_documents, apply_ite DB.documents]
    refine ⟨?_, ?_, ?_⟩
    · rw [documentsKeyUnique, hdocs,
        map_updateFirst (fun d => d.id == ex.id)
          (fun d => { d with file_name := fname, file_id := fid, status := .uploaded,
                             review_notes := none, reviewed_by := none })
          docKey db.documents (fun x => rfl)]
      exact hu
    · intro ex2 hex2
      have hex2' : ex2 = ex := by
        have : some ex2 = some ex := by rw [← hex2]; exact hex
        exact Option.some.injEq .. ▸ this.symm ▸ rfl
      cases hex2'
      refine ⟨hdocs, ?_, ?_⟩
      · rw [hdocs, length_updateFirst]
      · intro hid
        have hid' : db.documents.find? (fun d => d.id == ex.id) = some ex := hid
        have hdb1 : findDocumentById
            (upload_contract_document db actor cid dt fname (some fid) did).1 ex.id =
            ((updateFirst (fun d => d.id == ex.id)
              (fun d => { d with file_name := fname, file_id := fid, status := .uploaded,
                                 review_notes := none, reviewed_by := none })
              db.documents).find? (fun d => d.id == ex.id)) := by
          rw [findDocumentById, hdocs]
        rw [hdb1,
          find?_updateFirst (fun d => d.id == ex.id)
            (fun d => { d with file_name := fname, file_id := fid, status := .uploaded,
                               review_notes := none, reviewed_by := none })
            db.documents (fun x hx => hx)]
        rw [hid']
        rfl
    · intro hnone
      rw [show findDocumentByKey db cid dt =
        db.documents.find? (fun d => d.contract_id == cid && d.document_type == dt)
        from rfl, hex] at hnone
      exact absurd hnone (by simp)
  | none =>
    have hdocs : (upload_contract_document db actor cid dt fname (some fid) did).1.documents =
        db.documents ++
          [{ id := did, document_type := dt, contract_id := cid, file_name := fname,
             file_id := fid, status := .uploaded, uploaded_by := actor.id,
             reviewed_by := none, review_notes := none }] := by
      simp [upload_contract_document, findContract, findDocumentByKey, hc', hown, hex,
        notifyEach_documents, apply_ite DB.documents]
    refine ⟨?_, ?_, ?_⟩
    · rw [documentsKeyUnique, hdocs, List.map_append]
      rw [List.nodup_append]
      refine ⟨hu, by simp, ?_⟩
      intro a ha hb
      simp only [List.map_cons, List.map_nil, List.mem_singleton] at hb
      subst hb
      rcases List.mem_map.mp ha with ⟨d, hd, hkey⟩
      have h1 : d.contract_id = cid := congrArg Prod.fst hkey
      have h2 : d.document_type = dt := congrArg Prod.snd hkey
      have hpred : (d.contract_id == cid && d.document_type == dt) = true := by
        rw [h1, h2]; simp
      exact absurd hpred (by simpa using List.find?_eq_none.mp hex d hd)
    · intro ex2 hex2
      rw [show findDocumentByKey db cid dt =
        db.documents.find? (fun d => d.contract_id == cid && d.document_type == dt)
        from rfl, hex] at hex2
      exact absurd hex2 (by simp)
    · intro _
      exact hdocs

/-- C7 witness: re-uploading the already-present CEDULA document of the
concrete database updates it in place, keeps one record, and preserves key
uniqueness. -/
theorem upload_document_unique_key_witness :
    documentsKeyUnique c7_db.documents ∧
    findDocumentByKey c7_db "c1" .cedula = some (c2_doc "d1" .cedula .approved) ∧
    documentsKeyUnique
      (upload_contract_document c7_db c2_collab "c1" .cedula "g.pdf" (some "fid9")
        "dX").1.documents ∧
    (upload_contract_document c7_db c2_collab "c1" .cedula "g.pdf" (some "fid9")
        "dX").1.documents.length = c7_db.documents.length ∧
    findDocumentById
        (upload_contract_document c7_db c2_collab "c1" .cedula "g.pdf" (some "fid9")
          "dX").1 "d1" =
      some { c2_doc "d1" .cedula .approved with
             file_name := "g.pdf", file_id := "fid9", status := .uploaded,
             review_notes := none, reviewed_by := none } := by
  have h := upload_document_unique_key c7_db c2_collab "c1" .cedula "g.pdf" "fid9" "dX"
    c3_contract (by decide) (by decide) (by unfold documentsKeyUnique; decide)
  have h2 := h.2.1 (c2_doc "d1" .cedula .approved) (by decide)
  exact ⟨by unfold documentsKeyUnique; decide, by decide, h.1, h2.2.1, h2.2.2 (by decide)⟩

/-- C2 (amended): when a document review sets the last not-yet-approved
required document of a contract currently UNDER_REVIEW to APPROVED, the
contract advances to PENDING_APPROVAL and exactly one "documents complete"
EMAIL is sent to the collaborator — no "documents complete" Notification
record is created (the only notification inserted is the per-review
"Documento Revisado" one); approvals that leave required documents
unapproved, or reviews while the contract is not UNDER_REVIEW, neither
advance the contract nor produce the completion email. -/
theorem documents_complete_cascade (db : DB) (actor : User) (did : String)
    (notes? : Option String) (document : Document) (contract : Contract) (collab : User)
    (hrole : has_permission actor.role .admin = true)
    (hd : findDocumentById db did = some document)
    (hc : findContract db document.contract_id = some contract)
    (hcu : findUser db contract.collaborator_id = some collab)
    (hmail : (collab.email != "") = true) :
    ((REQUIRED_DOCUMENTS.length ≤
        approvedRequiredCount
          (updateFirst (fun d => d.id == did) (applyReview actor (some .approved) notes?)
            db.documents) contract.id ∧
      contract.status = .under_review) →
      (review_document db actor did (some .approved) notes?).2 = .ok () ∧
      findContract (review_document db actor did (some .approved) notes?).1 contract.id =
        some { contract with status := .pending_approval } ∧
      (review_document db actor did (some .approved) notes?).1.notifications =
        db.notifications ++
          [{ user_id := contract.collaborator_id, title := "Documento Revisado",
             message := reviewNotificationMessage (some .approved) notes?,
             notification_type := "document_reviewed", read := false }] ∧
      (review_document db actor did (some .approved) notes?).1.emails =
        db.emails ++
          [{ recipient := collab.email,
             subject := "Documentos Completos - Contrato " ++ contract.title }]) ∧
    (¬ (REQUIRED_DOCUMENTS.length ≤
          approvedRequiredCount
            (updateFirst (fun d => d.id == did) (applyReview actor (some .approved) notes?)
              db.documents) contract.id ∧
        contract.status = .under_review) →
      (review_document db actor did (some .approved) notes?).2 = .ok () ∧
      (review_document db actor did (some .approved) notes?).1.contracts = db.contracts ∧
      (review_document db actor did (some .approved) notes?).1.notifications =
        db.notifications ++
          [{ user_id := contract.collaborator_id, title := "Documento Revisado",
             message := reviewNotificationMessage (some .approved) notes?,
             notification_type := "document_reviewed", read := false }] ∧
      (review_document db actor did (some .approved) notes?).1.emails = db.emails) := by
  have hd' : db.documents.find? (fun d => d.id == did) = some document := hd
  have hc' : db.contracts.find? (fun c => c.id == document.contract_id) = some contract := hc
  have hcu' : db.users.find? (fun u => u.id == contract.collaborator_id) = some collab := hcu
  have hcid : contract.id = document.contract_id := by
    have := List.find?_some hc'
    simpa using this
  have hc2 : db.contracts.find? (fun c => c.id == contract.id) = some contract := by
    rw [hcid]; exact hc'
  constructor
  · rintro ⟨hcount, hunder⟩
    refine ⟨?_, ?_, ?_, ?_⟩
    · simp [review_document, hrole, findDocumentById, findContract, findUser, hd', hc',
        hcu', hcount, hunder, hmail, pushNotification, pushEmail]
    · have hcontracts : (review_document db actor did (some .approved) notes?).1.contracts =
          updateFirst (fun c => c.id == contract.id)
            (fun c => { c with status := .pending_approval }) db.contracts := by
        simp [review_document, hrole, findDocumentById, findContract, findUser, hd', hc',
          hcu', hcount, hunder, hmail, pushNotification, pushEmail]
      rw [findContract, hcontracts,
        find?_updateFirst (fun c => c.id == contract.id)
          (fun c => { c with status := .pending_approval }) db.contracts (fun x hx => hx)]
      rw [hc2]
      rfl
    · simp [review_document, hrole, findDocumentById, findContract, findUser, hd', hc',
        hcu', hcount, hunder, hmail, pushNotification, pushEmail]
    · simp [review_document, hrole, findDocumentById, findContract, findUser, hd', hc',
        hcu', hcount, hunder, hmail, pushNotification, pushEmail]
  · intro hn
    by_cases hcount : REQUIRED_DOCUMENTS.length ≤
        approvedRequiredCount
          (updateFirst (fun d => d.id == did) (applyReview actor (some .approved) notes?)
            db.documents) contract.id
    · have hunder : ¬ contract.status = .under_review := fun h => hn ⟨hcount, h⟩
      have hunder' : (contract.status == ContractStatus.under_review) = false := by
        simpa using hunder
      refine ⟨?_, ?_, ?_, ?_⟩ <;>
        simp [review_document, hrole, findDocumentById, findContract, findUser, hd', hc',
          hcu', hcount, hunder', hmail, pushNotification, pushEmail]
    · refine ⟨?_, ?_, ?_, ?_⟩ <;>
        simp [review_document, hrole, findDocumentById, findContract, findUser, hd', hc',
          hcu', hcount, hmail, pushNotification, pushEmail]

/-- C2 witness: the amended theorem applied to the concrete database where
the sixth required document gets approved while the contract is
UNDER_REVIEW. -/
theorem documents_complete_cascade_witness :
    has_permission c2_admin.role .admin = true ∧
    findDocumentById c2_db "d6" = some (c2_doc "d6" .propuesta_trabajo .uploaded) ∧
    findContract c2_db "c1" = some c2_contract ∧
    findUser c2_db "u" = some c2_collab ∧
    ((review_document c2_db c2_admin "d6" (some .approved) none).2 = .ok () ∧
     findContract (review_document c2_db c2_admin "d6" (some .approved) none).1 "c1" =
       some { c2_contract with status := .pending_approval } ∧
     (review_document c2_db c2_admin "d6" (some .approved) none).1.notifications =
       c2_db.notifications ++
         [{ user_id := "u", title := "Documento Revisado",
            message := reviewNotificationMessage (some .approved) none,
            notification_type := "document_reviewed", read := false }] ∧
     (review_document c2_db c2_admin "d6" (some .approved) none).1.emails =
       c2_db.emails ++
         [{ recipient := "u@x",
            subject := "Documentos Completos - Contrato " ++ "T" }]) :=
  ⟨by decide, by decide, by decide, by decide,
   (documents_complete_cascade c2_db c2_admin "d6" none
       (c2_doc "d6" .propuesta_trabajo .uploaded) c2_contract c2_collab
       (by decide) (by decide) (by decide) (by decide) (by decide)).1
     ⟨by decide, rfl⟩⟩
